import Mathlib

/-!
Verification of the Playwright demo repository's wrapper layer:
APIClient (URL building, headers, retry configuration, close),
BasePage visibility checks, the Logger facade singleton, and the
filename helpers.  Python code is shallowly embedded: strings are
Lean `String`s, header maps are association lists with Python-dict
insert-or-replace semantics, and stateful classes become explicit
state-passing functions.
-/

namespace PlaywrightDemo

/-- Removes every leading character satisfying `p`, as Python's
`str.lstrip` does for a single-character strip set. -/
def lstrip (p : Char → Bool) : List Char → List Char
  | [] => []
  | c :: cs => if p c then lstrip p cs else c :: cs

/-- Removes every trailing character satisfying `p`, as Python's
`str.rstrip` does for a single-character strip set. -/
def rstrip (p : Char → Bool) (l : List Char) : List Char :=
  (lstrip p l.reverse).reverse

/-- Embedding of Python's `str.startswith`: `leadsWith pat s` is true when
the character list `pat` is an initial segment of `s`. -/
def leadsWith : List Char → List Char → Bool
  | [], _ => true
  | _ :: _, [] => false
  | a :: as, b :: bs => a = b && leadsWith as bs

/-- `startsWithStr pat s` embeds Python's `s.startswith(pat)`. -/
def startsWithStr (pat s : String) : Bool :=
  leadsWith pat.data s.data

/-- Embedding of `APIClient._build_url` from
`tests/api/clients/api_client.py`: if the endpoint starts with the literal
string "http" it is returned unchanged, otherwise the result is
`base_url + "/" + endpoint.lstrip('/')`. -/
def build_url (base_url endpoint : String) : String :=
  if startsWithStr "http" endpoint then endpoint
  else base_url ++ "/" ++ String.mk (lstrip (fun c => c = '/') endpoint.data)

/-- Spec-side definition (for the refinement claims C1/C2 only): whether a
string starts with a URL scheme, i.e. a letter followed by a possibly empty
run of letters, digits, `+`, `-` or `.`, then a colon (RFC 3986 scheme
syntax).  `schemeTail` scans for the colon after the first letter. -/
def schemeTail : List Char → Bool
  | [] => false
  | c :: cs =>
    if c = ':' then true
    else if c.isAlpha || c.isDigit || c = '+' || c = '-' || c = '.' then schemeTail cs
    else false

/-- Spec-side definition: the string starts with a URL scheme. -/
def specStartsWithUrlScheme (s : String) : Bool :=
  match s.data with
  | [] => false
  | c :: cs => c.isAlpha && schemeTail cs

/-- Spec-side definition (for refinement claim C1 only): joining base_url
and endpoint with exactly one separating slash, no duplicate and no missing
slash regardless of a trailing slash on base_url or a leading slash on the
endpoint. -/
def specJoinUrl (base_url endpoint : String) : String :=
  String.mk (rstrip (fun c => c = '/') base_url.data) ++ "/" ++
    String.mk (lstrip (fun c => c = '/') endpoint.data)

example : build_url "https://api.example.test" "items/1" = "https://api.example.test/items/1" := by
  decide

example : build_url "https://api.example.test" "/items/1" = "https://api.example.test/items/1" := by
  decide

example : build_url "https://api.example.test/" "items" = "https://api.example.test//items" := by
  decide

example : build_url "https://b" "ftp://host" = "https://b/ftp://host" := by decide

example : specStartsWithUrlScheme "ftp://host" = true := by decide

example : specStartsWithUrlScheme "items" = false := by decide

theorem lstrip_head_not (p : Char → Bool) (l : List Char) :
    ∀ c, (lstrip p l).head? = some c → p c = false := by
  induction l with
  | nil => intro c h; simp [lstrip] at h
  | cons a as ih =>
    intro c h
    by_cases hp : p a
    · simp only [lstrip, hp, if_true] at h
      exact ih c h
    · simp only [lstrip, hp, if_false, Bool.false_eq_true, List.head?_cons,
        Option.some.injEq] at h
      rw [← h]
      exact Bool.eq_false_iff.mpr hp

theorem lstrip_eq_self (p : Char → Bool) (l : List Char)
    (h : ∀ c, l.head? = some c → p c = false) : lstrip p l = l := by
  cases l with
  | nil => rfl
  | cons a as => simp [lstrip, h a rfl]

theorem rstrip_eq_self (p : Char → Bool) (l : List Char)
    (h : ∀ c, l.getLast? = some c → p c = false) : rstrip p l = l := by
  unfold rstrip
  rw [lstrip_eq_self, List.reverse_reverse]
  intro c hc
  exact h c (by rwa [List.head?_reverse] at hc)

/-- C1: the claim as stated is false on the code.  With base_url
`https://api.example.test/` (trailing slash) and endpoint `items` — which
does not start with a URL scheme — `_build_url` produces a duplicate slash
instead of the single-slash join the spec promises. -/
theorem build_url_trailing_slash_cex :
    specStartsWithUrlScheme "items" = false ∧
    build_url "https://api.example.test/" "items" = "https://api.example.test//items" ∧
    specJoinUrl "https://api.example.test/" "items" = "https://api.example.test/items" ∧
    build_url "https://api.example.test/" "items" ≠
      specJoinUrl "https://api.example.test/" "items" := by
  refine ⟨by decide, by decide, by decide, by decide⟩

/-- C1 (amended): if the endpoint does not start with the literal string
"http" and base_url does not end with a slash, `_build_url` returns exactly
base_url joined to the endpoint with one separating slash — equal to the
spec's join, with leading slashes of the endpoint stripped. -/
theorem build_url_joins (base endpoint : String)
    (hep : startsWithStr "http" endpoint = false)
    (hbase : ∀ c, base.data.getLast? = some c → c ≠ '/') :
    build_url base endpoint = specJoinUrl base endpoint ∧
    build_url base endpoint =
      base ++ "/" ++ String.mk (lstrip (fun c => c = '/') endpoint.data) := by
  have hb : rstrip (fun c => c = '/') base.data = base.data := by
    apply rstrip_eq_self
    intro c hc
    exact decide_eq_false (hbase c hc)
  constructor
  · simp only [build_url, hep, Bool.false_eq_true, if_false, specJoinUrl, hb]
  · simp [build_url, hep]

/-- C1 witness: concrete instance of the amended claim. -/
theorem build_url_joins_witness :
    build_url "https://api.example.test" "/items/1" =
      specJoinUrl "https://api.example.test" "/items/1" ∧
    build_url "https://api.example.test" "/items/1" = "https://api.example.test/items/1" := by
  have h := build_url_joins "https://api.example.test" "/items/1" (by decide)
    (by intro c hc; simp at hc; rw [← hc]; decide)
  exact ⟨h.1, h.2.trans (by decide)⟩

/-- C2: the claim as stated is false on the code.  The endpoint
`ftp://host` starts with a URL scheme (`ftp:`), so by the claim it must be
passed through unchanged, but `_build_url` tests only for the literal
prefix "http" and resolves it against base_url instead. -/
theorem build_url_scheme_cex :
    specStartsWithUrlScheme "ftp://host" = true ∧
    build_url "https://b" "ftp://host" = "https://b/ftp://host" ∧
    build_url "https://b" "ftp://host" ≠ "ftp://host" := by
  refine ⟨by decide, by decide, by decide⟩

/-- C2 (amended): `_build_url` passes the endpoint through unchanged
exactly when it starts with the literal string "http" (not a URL-scheme
test), and otherwise resolves it against base_url as
`base_url + "/" + endpoint.lstrip('/')`. -/
theorem build_url_passthrough (base endpoint : String) :
    (startsWithStr "http" endpoint = true → build_url base endpoint = endpoint) ∧
    (startsWithStr "http" endpoint = false →
      build_url base endpoint =
        base ++ "/" ++ String.mk (lstrip (fun c => c = '/') endpoint.data)) := by
  constructor <;> intro h <;> simp [build_url, h]

/-- C2 witness: concrete instances of both branches of the amended claim. -/
theorem build_url_passthrough_witness :
    build_url "https://base" "https://other/x" = "https://other/x" ∧
    build_url "https://base" "items" = "https://base/items" := by
  constructor
  · exact (build_url_passthrough "https://base" "https://other/x").1 (by decide)
  · exact ((build_url_passthrough "https://base" "items").2 (by decide)).trans (by decide)

/-! ## Header maps

Python's `session.headers` is a (case-aware in our embedding) mapping from
header names to values; `headers[key] = value` replaces the value of an
existing key in place or appends a new entry. -/

/-- `headers[k] = v` on an association list: replace the first entry with
key `k`, or append at the end, exactly as a Python dict assignment. -/
def setKey (k v : String) : List (String × String) → List (String × String)
  | [] => [(k, v)]
  | (k', v') :: rest => if k' = k then (k, v) :: rest else (k', v') :: setKey k v rest

/-- `headers.get(k)` on an association list. -/
def lookupKey (k : String) : List (String × String) → Option String
  | [] => none
  | (k', v') :: rest => if k' = k then some v' else lookupKey k rest

/-- Number of entries carrying key `k` (to state "replaces, never
appends"). -/
def countKey (k : String) (hs : List (String × String)) : Nat :=
  (hs.filter (fun kv => kv.1 = k)).length

/-- `dict.update(new)` applied over an association list. -/
def updateHeaders (hs new : List (String × String)) : List (String × String) :=
  new.foldl (fun acc kv => setKey kv.1 kv.2 acc) hs

theorem lookupKey_setKey_self (k v : String) (hs : List (String × String)) :
    lookupKey k (setKey k v hs) = some v := by
  induction hs with
  | nil => simp [setKey, lookupKey]
  | cons hd tl ih =>
    by_cases h : hd.1 = k
    · simp [setKey, lookupKey, h]
    · simp [setKey, lookupKey, h, ih]

theorem lookupKey_setKey_ne (k k' v : String) (hs : List (String × String))
    (h : k' ≠ k) : lookupKey k' (setKey k v hs) = lookupKey k' hs := by
  have hne : ¬k = k' := fun hh => h hh.symm
  induction hs with
  | nil => simp [setKey, lookupKey, hne]
  | cons hd tl ih =>
    by_cases hk : hd.1 = k
    · simp [setKey, lookupKey, hk, hne]
    · simp [setKey, lookupKey, hk, ih]

theorem countKey_setKey_present (k v : String) (hs : List (String × String))
    (h : lookupKey k hs ≠ none) : countKey k (setKey k v hs) = countKey k hs := by
  induction hs with
  | nil => simp [lookupKey] at h
  | cons hd tl ih =>
    by_cases hk : hd.1 = k
    · simp [setKey, countKey, hk]
    · simp only [lookupKey, hk, if_false] at h
      simp [setKey, countKey, hk, countKey] at ih ⊢
      exact ih h

/-! ## APIClient state

`APIClient.__init__` stores base_url and timeout, creates a session with
default headers (updated with any user-supplied ones) and mounts an
HTTPAdapter configured with the retry strategy
`Retry(total=3, backoff_factor=1, status_forcelist=[429,500,502,503,504])`. -/

structure RetryConfig where
  total : Nat
  backoff_factor : Nat
  status_forcelist : List Nat
deriving DecidableEq, Repr

/-- The retry strategy literal from `APIClient.__init__`. -/
def retry_strategy : RetryConfig :=
  { total := 3, backoff_factor := 1, status_forcelist := [429, 500, 502, 503, 504] }

structure HTTPSession where
  headers : List (String × String)
  closed : Bool
  retry : RetryConfig
deriving DecidableEq, Repr

structure APIClient where
  base_url : String
  timeout : Nat
  session : HTTPSession
deriving DecidableEq, Repr

/-- The default header set installed by `APIClient.__init__`. -/
def defaultHeaders : List (String × String) :=
  [("User-Agent", "Playwright-Demo/1.0"), ("Accept", "application/json")]

/-- `APIClient.__init__(base_url, timeout, headers)` with all arguments
supplied (when omitted, Python falls back to the config module's values —
that fallback only picks the argument values and is not modelled
separately). -/
def APIClient.init (base_url : String) (timeout : Nat)
    (headers : List (String × String)) : APIClient :=
  { base_url := base_url
    timeout := timeout
    session :=
      { headers := updateHeaders defaultHeaders headers
        closed := false
        retry := retry_strategy } }

/-- The request a verb method hands to the underlying session: URL built
by `_build_url`, the session's current header map, the client timeout. -/
structure Request where
  method : String
  url : String
  headers : List (String × String)
  timeout : Nat
deriving DecidableEq, Repr

/-- `APIClient.get(endpoint)`: the session request it issues. -/
def APIClient.get (c : APIClient) (endpoint : String) : Request :=
  { method := "GET", url := build_url c.base_url endpoint
    headers := c.session.headers, timeout := c.timeout }

/-- `APIClient.post(endpoint)`: the session request it issues. -/
def APIClient.post (c : APIClient) (endpoint : String) : Request :=
  { method := "POST", url := build_url c.base_url endpoint
    headers := c.session.headers, timeout := c.timeout }

/-- `APIClient.put(endpoint)`: the session request it issues. -/
def APIClient.put (c : APIClient) (endpoint : String) : Request :=
  { method := "PUT", url := build_url c.base_url endpoint
    headers := c.session.headers, timeout := c.timeout }

/-- `APIClient.patch(endpoint)`: the session request it issues. -/
def APIClient.patch (c : APIClient) (endpoint : String) : Request :=
  { method := "PATCH", url := build_url c.base_url endpoint
    headers := c.session.headers, timeout := c.timeout }

/-- `APIClient.delete(endpoint)`: the session request it issues. -/
def APIClient.delete (c : APIClient) (endpoint : String) : Request :=
  { method := "DELETE", url := build_url c.base_url endpoint
    headers := c.session.headers, timeout := c.timeout }

/-- `APIClient.set_auth_header(token, header_type)`; Python defaults
`header_type` to "Bearer". -/
def set_auth_header (c : APIClient) (token header_type : String) : APIClient :=
  { c with session :=
      { c.session with
        headers := setKey "Authorization" (header_type ++ " " ++ token) c.session.headers } }

/-- `APIClient.set_header(key, value)`. -/
def set_header (c : APIClient) (key value : String) : APIClient :=
  { c with session :=
      { c.session with headers := setKey key value c.session.headers } }

/-- `APIClient.close()`: closes the underlying session, releasing its
connection pool. -/
def APIClient.close (c : APIClient) : APIClient :=
  { c with session := { c.session with closed := true } }

/-- `APIClient.__exit__(exc_type, exc_val, exc_tb)`: calls `close()`
whatever the exception information is (normal or exceptional exit). -/
def APIClient.exit (c : APIClient) (_excInfo : Option String) : APIClient :=
  APIClient.close c

theorem bearer_space : ("Bearer" : String) ++ " " = "Bearer " := rfl

/-- C4: after `set_auth_header(token)` (default scheme "Bearer"), every
subsequent request — here GET and POST — carries
`Authorization: Bearer token`; a second call with a new token replaces the
value and does not add a second Authorization entry; in particular
`set_auth_header("abc")` yields exactly `Authorization: Bearer abc`. -/
theorem set_auth_header_bearer (c : APIClient) (token token' endpoint : String) :
    lookupKey "Authorization" ((set_auth_header c token "Bearer").get endpoint).headers
      = some ("Bearer " ++ token) ∧
    lookupKey "Authorization" ((set_auth_header c token "Bearer").post endpoint).headers
      = some ("Bearer " ++ token) ∧
    lookupKey "Authorization"
        ((set_auth_header (set_auth_header c token "Bearer") token' "Bearer").get
          endpoint).headers
      = some ("Bearer " ++ token') ∧
    countKey "Authorization"
        (set_auth_header (set_auth_header c token "Bearer") token' "Bearer").session.headers
      = countKey "Authorization" (set_auth_header c token "Bearer").session.headers ∧
    lookupKey "Authorization" (set_auth_header c "abc" "Bearer").session.headers
      = some "Bearer abc" := by
  refine ⟨?_, ?_, ?_, ?_, ?_⟩
  · simp [set_auth_header, APIClient.get, lookupKey_setKey_self, bearer_space]
  · simp [set_auth_header, APIClient.post, lookupKey_setKey_self, bearer_space]
  · simp [set_auth_header, APIClient.get, lookupKey_setKey_self, bearer_space]
  · apply countKey_setKey_present
    simp [set_auth_header, lookupKey_setKey_self]
  · simp [set_auth_header, lookupKey_setKey_self, bearer_space]

/-- C8: `close()` is idempotent — a second `close()` leaves the client in
exactly the state the first left it in — it marks the session's connection
pool released, and the context-manager exit path calls `close()` whatever
the exception information is. -/
theorem close_idempotent (c : APIClient) :
    APIClient.close (APIClient.close c) = APIClient.close c ∧
    (APIClient.close c).session.closed = true ∧
    ∀ excInfo : Option String, APIClient.exit c excInfo = APIClient.close c :=
  ⟨rfl, rfl, fun _ => rfl⟩

/-- C10: `set_header(key, value)` and `set_auth_header(token, scheme)`
change only the named header entry ("key", respectively "Authorization");
base_url, timeout, the retry configuration, the closed flag and every
other header entry are unchanged. -/
theorem set_header_frame (c : APIClient) (key value token scheme k' : String) :
    (set_header c key value).base_url = c.base_url ∧
    (set_header c key value).timeout = c.timeout ∧
    (set_header c key value).session.retry = c.session.retry ∧
    (set_header c key value).session.closed = c.session.closed ∧
    (k' ≠ key →
      lookupKey k' (set_header c key value).session.headers
        = lookupKey k' c.session.headers) ∧
    (set_auth_header c token scheme).base_url = c.base_url ∧
    (set_auth_header c token scheme).timeout = c.timeout ∧
    (set_auth_header c token scheme).session.retry = c.session.retry ∧
    (set_auth_header c token scheme).session.closed = c.session.closed ∧
    (k' ≠ "Authorization" →
      lookupKey k' (set_auth_header c token scheme).session.headers
        = lookupKey k' c.session.headers) := by
  refine ⟨rfl, rfl, rfl, rfl, ?_, rfl, rfl, rfl, rfl, ?_⟩
  · intro h
    exact lookupKey_setKey_ne key k' value c.session.headers h
  · intro h
    exact lookupKey_setKey_ne "Authorization" k' (scheme ++ " " ++ token)
      c.session.headers h

/-- C10 witness: on a concrete client, setting `X-Test` leaves the
`Accept` default header and the client's base_url untouched. -/
theorem set_header_frame_witness :
    lookupKey "Accept"
        (set_header (APIClient.init "https://api.example.test" 30 []) "X-Test" "1").session.headers
      = lookupKey "Accept" (APIClient.init "https://api.example.test" 30 []).session.headers ∧
    lookupKey "Accept"
        (set_auth_header (APIClient.init "https://api.example.test" 30 []) "tok" "Bearer").session.headers
      = lookupKey "Accept" (APIClient.init "https://api.example.test" 30 []).session.headers ∧
    (set_header (APIClient.init "https://api.example.test" 30 []) "X-Test" "1").base_url
      = "https://api.example.test" := by
  have h := set_header_frame (APIClient.init "https://api.example.test" 30 [])
    "X-Test" "1" "tok" "Bearer" "Accept"
  exact ⟨h.2.2.2.2.1 (by decide), h.2.2.2.2.2.2.2.2.2 (by decide), h.1⟩

/-! ## Retry policy

`APIClient.__init__` mounts an HTTPAdapter with
`Retry(total=3, backoff_factor=1, status_forcelist=[429,500,502,503,504])`.
The loop executing that configuration lives in the urllib3 library, not in
this repository, so it is modelled from the spec. -/

/-- Modelled from the spec: the delay slept before retry number `attempt`
(counting from 0) is `backoff_factor × 2^attempt` seconds. -/
def backoffDelay (cfg : RetryConfig) (attempt : Nat) : Nat :=
  cfg.backoff_factor * 2 ^ attempt

/-- Modelled from the spec: the retry loop the session's adapter applies
to a GET.  `resp i` is the HTTP status of the i-th issue of the request.
While retries remain (`fuel`, starting at `total`) and the status is in
`status_forcelist`, sleep the backoff delay and reissue; return the final
status together with the list of delays slept, in order. -/
def retryLoop (cfg : RetryConfig) (resp : Nat → Nat) : Nat → Nat → Nat × List Nat
  | attempt, 0 => (resp attempt, [])
  | attempt, fuel + 1 =>
    if resp attempt ∈ cfg.status_forcelist then
      let rest := retryLoop cfg resp (attempt + 1) fuel
      (rest.1, backoffDelay cfg attempt :: rest.2)
    else (resp attempt, [])

/-- A GET under the configured retry policy: up to `total` retries after
the initial request. -/
def retryGet (cfg : RetryConfig) (resp : Nat → Nat) : Nat × List Nat :=
  retryLoop cfg resp 0 cfg.total

/-- C5: with the session's configured policy, a GET whose responses have
statuses in {429, 500, 502, 503, 504} is retried up to 3 times, sleeping
the exponentially increasing delays `backoff_factor × 2^attempt` =
1, 2, 4 seconds, and the final response is returned to the caller; a
response outside the set stops the retrying immediately. -/
theorem retry_policy_get (resp : Nat → Nat) :
    (∀ i, backoffDelay retry_strategy i = 2 ^ i) ∧
    retry_strategy.total = 3 ∧
    retry_strategy.status_forcelist = [429, 500, 502, 503, 504] ∧
    (resp 0 ∉ retry_strategy.status_forcelist →
      retryGet retry_strategy resp = (resp 0, [])) ∧
    (resp 0 ∈ retry_strategy.status_forcelist →
      resp 1 ∉ retry_strategy.status_forcelist →
      retryGet retry_strategy resp = (resp 1, [1])) ∧
    (resp 0 ∈ retry_strategy.status_forcelist →
      resp 1 ∈ retry_strategy.status_forcelist →
      resp 2 ∉ retry_strategy.status_forcelist →
      retryGet retry_strategy resp = (resp 2, [1, 2])) ∧
    (resp 0 ∈ retry_strategy.status_forcelist →
      resp 1 ∈ retry_strategy.status_forcelist →
      resp 2 ∈ retry_strategy.status_forcelist →
      retryGet retry_strategy resp = (resp 3, [1, 2, 4])) := by
  refine ⟨fun i => by simp [backoffDelay, retry_strategy], rfl, rfl, ?_, ?_, ?_, ?_⟩
  · intro h0
    have g0 : ¬(resp 0 = 429 ∨ resp 0 = 500 ∨ resp 0 = 502 ∨ resp 0 = 503 ∨ resp 0 = 504) := by
      simpa [retry_strategy] using h0
    simp [retryGet, retryLoop, retry_strategy, backoffDelay, g0]
  · intro h0 h1
    have g0 : resp 0 = 429 ∨ resp 0 = 500 ∨ resp 0 = 502 ∨ resp 0 = 503 ∨ resp 0 = 504 := by
      simpa [retry_strategy] using h0
    have g1 : ¬(resp 1 = 429 ∨ resp 1 = 500 ∨ resp 1 = 502 ∨ resp 1 = 503 ∨ resp 1 = 504) := by
      simpa [retry_strategy] using h1
    simp [retryGet, retryLoop, retry_strategy, backoffDelay, g0, g1]
  · intro h0 h1 h2
    have g0 : resp 0 = 429 ∨ resp 0 = 500 ∨ resp 0 = 502 ∨ resp 0 = 503 ∨ resp 0 = 504 := by
      simpa [retry_strategy] using h0
    have g1 : resp 1 = 429 ∨ resp 1 = 500 ∨ resp 1 = 502 ∨ resp 1 = 503 ∨ resp 1 = 504 := by
      simpa [retry_strategy] using h1
    have g2 : ¬(resp 2 = 429 ∨ resp 2 = 500 ∨ resp 2 = 502 ∨ resp 2 = 503 ∨ resp 2 = 504) := by
      simpa [retry_strategy] using h2
    simp [retryGet, retryLoop, retry_strategy, backoffDelay, g0, g1, g2]
  · intro h0 h1 h2
    have g0 : resp 0 = 429 ∨ resp 0 = 500 ∨ resp 0 = 502 ∨ resp 0 = 503 ∨ resp 0 = 504 := by
      simpa [retry_strategy] using h0
    have g1 : resp 1 = 429 ∨ resp 1 = 500 ∨ resp 1 = 502 ∨ resp 1 = 503 ∨ resp 1 = 504 := by
      simpa [retry_strategy] using h1
    have g2 : resp 2 = 429 ∨ resp 2 = 500 ∨ resp 2 = 502 ∨ resp 2 = 503 ∨ resp 2 = 504 := by
      simpa [retry_strategy] using h2
    simp [retryGet, retryLoop, retry_strategy, backoffDelay, g0, g1, g2]

/-- C5 witness: a server that always answers 503 sees the GET retried 3
times with delays 1, 2, 4 seconds, and 503 is finally returned. -/
theorem retry_policy_get_witness :
    retryGet retry_strategy (fun _ => 503) = (503, [1, 2, 4]) := by
  have h := retry_policy_get (fun _ => 503)
  exact h.2.2.2.2.2.2 (by decide) (by decide) (by decide)

/-! ## BasePage visibility checks

`BasePage.is_visible` / `BasePage.is_enabled` wrap the corresponding page
calls in `try/except Exception`: an engine call either returns a Bool or
raises (closed page, syntactically invalid selector, any engine error),
which the embedding captures as an `EngineResult`. -/

inductive EngineResult (α : Type) where
  | ok : α → EngineResult α
  | err : String → EngineResult α
deriving DecidableEq, Repr

/-- The wrapped Playwright page handle in an arbitrary state: for each
selector, `page.is_visible` / `page.is_enabled` either return a Bool or
raise an error described by a message. -/
structure PageHandle where
  visibleResult : String → EngineResult Bool
  enabledResult : String → EngineResult Bool

/-- `BasePage.__init__(page, base_url)`. -/
structure BasePage where
  page : PageHandle
  base_url : String

/-- `BasePage.is_visible(selector)`: the engine's answer, or on any raised
error a `False` result; the second component is the list of warnings the
call logs. -/
def is_visible (p : BasePage) (selector : String) : Bool × List String :=
  match p.page.visibleResult selector with
  | EngineResult.ok b => (b, [])
  | EngineResult.err e =>
      (false, ["Error checking visibility of " ++ selector ++ ": " ++ e])

/-- `BasePage.is_enabled(selector)`: the engine's answer, or on any raised
error a `False` result; the second component is the list of warnings the
call logs. -/
def is_enabled (p : BasePage) (selector : String) : Bool × List String :=
  match p.page.enabledResult selector with
  | EngineResult.ok b => (b, [])
  | EngineResult.err e =>
      (false, ["Error checking if " ++ selector ++ " is enabled: " ++ e])

/-- C3: `is_visible` and `is_enabled` are total — every engine outcome,
error or not, yields a Bool — and whenever the underlying engine call
raises, they return `false` and log exactly one warning. -/
theorem visibility_checks_never_raise (p : BasePage) (selector e : String) :
    (p.page.visibleResult selector = EngineResult.err e →
      is_visible p selector =
        (false, ["Error checking visibility of " ++ selector ++ ": " ++ e])) ∧
    (p.page.enabledResult selector = EngineResult.err e →
      is_enabled p selector =
        (false, ["Error checking if " ++ selector ++ " is enabled: " ++ e])) ∧
    (∀ b, p.page.visibleResult selector = EngineResult.ok b →
      is_visible p selector = (b, [])) ∧
    (∀ b, p.page.enabledResult selector = EngineResult.ok b →
      is_enabled p selector = (b, [])) := by
  refine ⟨?_, ?_, ?_, ?_⟩
  · intro h; simp [is_visible, h]
  · intro h; simp [is_enabled, h]
  · intro b h; simp [is_visible, h]
  · intro b h; simp [is_enabled, h]

/-- A page object whose handle is closed: every engine call raises. -/
def closedPage : BasePage :=
  { page :=
      { visibleResult := fun _ => EngineResult.err "Page closed"
        enabledResult := fun _ => EngineResult.err "Page closed" }
    base_url := "https://example.com" }

/-- C3 witness: on a closed page, both checks return false with one
warning logged rather than raising. -/
theorem visibility_checks_never_raise_witness :
    is_visible closedPage "#btn" =
      (false, ["Error checking visibility of #btn: Page closed"]) ∧
    is_enabled closedPage "#btn" =
      (false, ["Error checking if #btn is enabled: Page closed"]) := by
  have h := visibility_checks_never_raise closedPage "#btn" "Page closed"
  exact ⟨h.1 rfl, h.2.1 rfl⟩

/-! ## Helpers: timestamps and filenames

`Helpers.get_timestamp` is `datetime.now().strftime("%Y%m%d_%H%M%S")`.
The embedding makes the current instant an explicit argument; strftime's
zero-padded decimal fields are embedded with a fuel-based decimal
formatter so that everything reduces in the kernel. -/

/-- The decimal digit character for `d < 10`. -/
def digitChar (d : Nat) : Char := Char.ofNat (48 + d)

/-- Decimal digits of `n` accumulated most-significant first; `fuel`
bounds the recursion depth and any `fuel ≥ n` is enough. -/
def natDigitsAux : Nat → Nat → List Char → List Char
  | 0, _, acc => acc
  | fuel + 1, n, acc =>
    if n = 0 then acc else natDigitsAux fuel (n / 10) (digitChar (n % 10) :: acc)

/-- Decimal representation of `n`, as Python's `%d`. -/
def natRepr (n : Nat) : String :=
  if n = 0 then "0" else String.mk (natDigitsAux n n [])

/-- `%0{w}d`: `n` in decimal, zero-padded on the left to width `w`. -/
def zeroPad (w n : Nat) : String :=
  String.mk (List.replicate (w - (natRepr n).data.length) '0' ++ (natRepr n).data)

/-- A wall-clock instant as `datetime.now()` delivers it; `micro` is the
sub-second part, which the format string `"%Y%m%d_%H%M%S"` discards. -/
structure DateTime where
  year : Nat
  month : Nat
  day : Nat
  hour : Nat
  minute : Nat
  second : Nat
  micro : Nat
deriving DecidableEq, Repr

/-- `Helpers.get_timestamp()` as a function of the current instant:
`datetime.now().strftime("%Y%m%d_%H%M%S")`. -/
def get_timestamp (now : DateTime) : String :=
  zeroPad 4 now.year ++ zeroPad 2 now.month ++ zeroPad 2 now.day ++ "_" ++
    zeroPad 2 now.hour ++ zeroPad 2 now.minute ++ zeroPad 2 now.second

/-- `Helpers.generate_unique_filename(prefix, extension)` as a function of
the current instant; Python's `if prefix` is the non-emptiness test. -/
def generate_unique_filename (pre ext : String) (now : DateTime) : String :=
  if pre.isEmpty then get_timestamp now ++ ext
  else pre ++ "_" ++ get_timestamp now ++ ext

example :
    get_timestamp { year := 2026, month := 10, day := 12, hour := 13,
                    minute := 45, second := 7, micro := 0 } = "20261012_134507" := by
  decide

theorem shot_underscore : ("shot" : String) ++ "_" = "shot_" := rfl

/-- C6: with a non-empty prefix the filename is
`prefix ++ "_" ++ get_timestamp(now) ++ extension` — in particular
`generate_unique_filename("shot", ".png")` is
`"shot_" ++ YYYYMMDD_HHMMSS ++ ".png"` — and two calls whose instants fall
in the same clock second (equal fields down to seconds, micro free)
return identical, colliding strings. -/
theorem generate_unique_filename_format (pre ext : String) (t1 t2 : DateTime)
    (hpre : pre ≠ "")
    (hsec : t1.year = t2.year ∧ t1.month = t2.month ∧ t1.day = t2.day ∧
            t1.hour = t2.hour ∧ t1.minute = t2.minute ∧ t1.second = t2.second) :
    generate_unique_filename pre ext t1 = pre ++ "_" ++ get_timestamp t1 ++ ext ∧
    generate_unique_filename "shot" ".png" t1 = "shot_" ++ get_timestamp t1 ++ ".png" ∧
    generate_unique_filename pre ext t1 = generate_unique_filename pre ext t2 := by
  obtain ⟨e1, e2, e3, e4, e5, e6⟩ := hsec
  have hts : get_timestamp t1 = get_timestamp t2 := by
    simp [get_timestamp, e1, e2, e3, e4, e5, e6]
  have hne : pre.isEmpty = false := by
    cases hiso : pre.isEmpty
    · rfl
    · exact absurd ((String.isEmpty_iff pre).mp hiso) hpre
  refine ⟨?_, ?_, ?_⟩
  · simp [generate_unique_filename, hne]
  · simp only [generate_unique_filename]
    rw [if_neg (by decide : ¬(("shot" : String).isEmpty = true))]
    rw [shot_underscore]
  · simp [generate_unique_filename, hne, hts]

/-- C6 witness: a concrete instant, and a second instant in the same
clock second, produce the very same `shot_YYYYMMDD_HHMMSS.png` string. -/
theorem generate_unique_filename_format_witness :
    generate_unique_filename "shot" ".png"
        { year := 2026, month := 10, day := 12, hour := 13, minute := 45,
          second := 7, micro := 1 } = "shot_20261012_134507.png" ∧
    generate_unique_filename "shot" ".png"
        { year := 2026, month := 10, day := 12, hour := 13, minute := 45,
          second := 7, micro := 1 } =
      generate_unique_filename "shot" ".png"
        { year := 2026, month := 10, day := 12, hour := 13, minute := 45,
          second := 7, micro := 999999 } := by
  have h := generate_unique_filename_format "shot" ".png"
    { year := 2026, month := 10, day := 12, hour := 13, minute := 45,
      second := 7, micro := 1 }
    { year := 2026, month := 10, day := 12, hour := 13, minute := 45,
      second := 7, micro := 999999 }
    (by decide) ⟨rfl, rfl, rfl, rfl, rfl, rfl⟩
  exact ⟨h.2.1.trans (by decide), h.2.2⟩

theorem digitChar_ne_underscore (d : Nat) (hd : d < 10) : digitChar d ≠ '_' := by
  interval_cases d <;> decide

theorem natDigitsAux_chars (fuel : Nat) :
    ∀ (n : Nat) (acc : List Char), ∀ c ∈ natDigitsAux fuel n acc,
      (∃ d, d < 10 ∧ c = digitChar d) ∨ c ∈ acc := by
  induction fuel with
  | zero => intro n acc c hc; exact Or.inr hc
  | succ fuel ih =>
    intro n acc c hc
    by_cases hn : n = 0
    · rw [natDigitsAux, if_pos hn] at hc
      exact Or.inr hc
    · rw [natDigitsAux, if_neg hn] at hc
      rcases ih (n / 10) _ c hc with h | h
      · exact Or.inl h
      · rcases List.mem_cons.mp h with h1 | h2
        · exact Or.inl ⟨n % 10, Nat.mod_lt n (by decide), h1⟩
        · exact Or.inr h2

theorem natDigitsAux_length (fuel : Nat) :
    ∀ (n : Nat) (acc : List Char), acc.length ≤ (natDigitsAux fuel n acc).length := by
  induction fuel with
  | zero => intro n acc; simp [natDigitsAux]
  | succ fuel ih =>
    intro n acc
    by_cases hn : n = 0
    · simp [natDigitsAux, hn]
    · rw [natDigitsAux, if_neg hn]
      calc acc.length ≤ (digitChar (n % 10) :: acc).length := by simp
        _ ≤ _ := ih (n / 10) _

theorem natRepr_chars (n : Nat) :
    ∀ c ∈ (natRepr n).data, ∃ d, d < 10 ∧ c = digitChar d := by
  intro c hc
  by_cases hn : n = 0
  · rw [natRepr, if_pos hn] at hc
    rw [show ("0" : String).data = ['0'] from rfl] at hc
    rcases List.mem_singleton.mp hc with h
    exact ⟨0, by decide, by rw [h]; rfl⟩
  · rw [natRepr, if_neg hn] at hc
    rcases natDigitsAux_chars n n [] c hc with h | h
    · exact h
    · simp at h

theorem natRepr_ne_nil (n : Nat) : (natRepr n).data ≠ [] := by
  by_cases hn : n = 0
  · rw [natRepr, if_pos hn]; decide
  · rw [natRepr, if_neg hn]
    intro h
    cases n with
    | zero => exact hn rfl
    | succ m =>
      rw [show (String.mk (natDigitsAux (m + 1) (m + 1) [])).data
            = natDigitsAux (m + 1) (m + 1) [] from rfl] at h
      rw [natDigitsAux, if_neg (Nat.succ_ne_zero m)] at h
      have hlen := natDigitsAux_length m ((m + 1) / 10) [digitChar ((m + 1) % 10)]
      rw [h] at hlen
      simp at hlen

theorem zeroPad_chars (w n : Nat) :
    ∀ c ∈ (zeroPad w n).data, ∃ d, d < 10 ∧ c = digitChar d := by
  intro c hc
  rw [show (zeroPad w n).data
        = List.replicate (w - (natRepr n).data.length) '0' ++ (natRepr n).data from rfl] at hc
  rcases List.mem_append.mp hc with h | h
  · exact ⟨0, by decide, by rw [List.eq_of_mem_replicate h]; rfl⟩
  · exact natRepr_chars n c h

theorem zeroPad_ne_nil (w n : Nat) : (zeroPad w n).data ≠ [] := by
  rw [show (zeroPad w n).data
        = List.replicate (w - (natRepr n).data.length) '0' ++ (natRepr n).data from rfl]
  intro h
  exact natRepr_ne_nil n (List.append_eq_nil.mp h).2

theorem get_timestamp_head_digit (t : DateTime) :
    ∀ c, (get_timestamp t).data.head? = some c → ∃ d, d < 10 ∧ c = digitChar d := by
  intro c hc
  rw [get_timestamp] at hc
  rw [String.data_append, String.data_append, String.data_append,
    String.data_append, String.data_append, String.data_append] at hc
  simp only [List.append_assoc] at hc
  rw [List.head?_append_of_ne_nil _ (zeroPad_ne_nil 4 t.year)] at hc
  have hmem : c ∈ (zeroPad 4 t.year).data := by
    cases hzp : (zeroPad 4 t.year).data with
    | nil => exact absurd hzp (zeroPad_ne_nil 4 t.year)
    | cons a as =>
      rw [hzp] at hc
      simp only [List.head?_cons, Option.some.injEq] at hc
      rw [← hc]
      exact List.mem_cons_self a as
  exact zeroPad_chars 4 t.year c hmem

/-- C9: with an empty prefix, `generate_unique_filename("", ext)` is just
the timestamp followed by the extension — its first character is a decimal
digit of the timestamp, never an underscore — while the underscore
separator appears exactly when a non-empty prefix is given. -/
theorem generate_unique_filename_empty (ext : String) (t : DateTime) :
    generate_unique_filename "" ext t = get_timestamp t ++ ext ∧
    (∀ c, (generate_unique_filename "" ext t).data.head? = some c → c ≠ '_') ∧
    (∀ pre : String, pre ≠ "" →
      generate_unique_filename pre ext t = pre ++ "_" ++ get_timestamp t ++ ext) := by
  refine ⟨rfl, ?_, ?_⟩
  · intro c hc
    rw [show generate_unique_filename "" ext t = get_timestamp t ++ ext from rfl,
      String.data_append,
      List.head?_append_of_ne_nil _ (by
        intro h
        rw [get_timestamp, String.data_append] at h
        have h2 := (List.append_eq_nil.mp h).1
        rw [String.data_append, String.data_append, String.data_append,
          String.data_append, String.data_append] at h2
        exact zeroPad_ne_nil 4 t.year
          (List.append_eq_nil.mp (List.append_eq_nil.mp (List.append_eq_nil.mp
            (List.append_eq_nil.mp (List.append_eq_nil.mp h2).1).1).1).1).1)] at hc
    obtain ⟨d, hd, hcd⟩ := get_timestamp_head_digit t c hc
    rw [hcd]
    exact digitChar_ne_underscore d hd
  · intro pre hpre
    have hne : pre.isEmpty = false := by
      cases hiso : pre.isEmpty
      · rfl
      · exact absurd ((String.isEmpty_iff pre).mp hiso) hpre
    simp [generate_unique_filename, hne]

/-- C9 witness: empty prefix yields `20261012_134507.png` with no leading
underscore; the non-empty prefix `shot` gets the separator. -/
theorem generate_unique_filename_empty_witness :
    generate_unique_filename "" ".png"
        { year := 2026, month := 10, day := 12, hour := 13, minute := 45,
          second := 7, micro := 0 } = "20261012_134507.png" ∧
    ('2' : Char) ≠ '_' ∧
    generate_unique_filename "sh" ".png"
        { year := 2026, month := 10, day := 12, hour := 13, minute := 45,
          second := 7, micro := 0 } = "sh_20261012_134507.png" := by
  have h := generate_unique_filename_empty ".png"
    { year := 2026, month := 10, day := 12, hour := 13, minute := 45,
      second := 7, micro := 0 }
  refine ⟨h.1.trans (by decide), h.2.1 '2' (by decide), ?_⟩
  exact (h.2.2 "sh" (by decide)).trans (by decide)

/-! ## Logger facade

`Logger` keeps a class attribute `_logger`; `get_logger` initializes it on
first use via `_setup_logger` and afterwards returns it unchanged.  The
embedding models a fresh process: the `logging.getLogger(name)` registry
entry starts with no handlers. -/

structure Handler where
  hlevel : Nat
  hformat : String
deriving DecidableEq, Repr

structure LoggerObj where
  name : String
  level : Nat
  handlers : List Handler
deriving DecidableEq, Repr

/-- The console handler `_setup_logger` creates: StreamHandler at DEBUG
(10) with the fixed timestamped format. -/
def consoleHandler : Handler :=
  { hlevel := 10
    hformat := "%(asctime)s - %(name)s - %(levelname)s - %(message)s" }

/-- `Logger._setup_logger(name)`: take the (fresh) registry logger for
`name`, set its level to DEBUG, and attach the console handler only if the
logger has no handlers yet. -/
def setup_logger (name : String) : LoggerObj :=
  let l : LoggerObj := { name := name, level := 10, handlers := [] }
  if l.handlers.isEmpty then { l with handlers := l.handlers ++ [consoleHandler] }
  else l

/-- `Logger.get_logger(name)`: state-passing form of the class-attribute
singleton.  Returns the logger handed to the caller and the new value of
`_logger`; `name` defaults to "playwright-demo" when omitted (`none`). -/
def get_logger (st : Option LoggerObj) (name : Option String) :
    LoggerObj × Option LoggerObj :=
  match st with
  | none =>
    let l := setup_logger (name.getD "playwright-demo")
    (l, some l)
  | some l => (l, some l)

/-- A sequence of `get_logger` calls with the given name arguments,
collecting every returned instance and the final `_logger` state. -/
def runGetLogger : List (Option String) → Option LoggerObj →
    List LoggerObj × Option LoggerObj
  | [], st => ([], st)
  | n :: ns, st =>
    let r := get_logger st n
    let rest := runGetLogger ns r.2
    (r.1 :: rest.1, rest.2)

theorem runGetLogger_after_setup (l : LoggerObj) (ns : List (Option String)) :
    runGetLogger ns (some l) = (List.replicate ns.length l, some l) := by
  induction ns with
  | nil => rfl
  | cons n ns ih => simp [runGetLogger, get_logger, ih, List.replicate]

/-- C7: `get_logger` is a process-wide singleton.  Starting from the
uninitialized state, the first call sets up the logger and every later
call — whatever its name argument — returns that very same instance, and
the console handler is attached exactly once however many calls are
made. -/
theorem logger_singleton (n : Option String) (ns : List (Option String)) :
    runGetLogger (n :: ns) none =
      (List.replicate (ns.length + 1) (setup_logger (n.getD "playwright-demo")),
        some (setup_logger (n.getD "playwright-demo"))) ∧
    (setup_logger (n.getD "playwright-demo")).handlers = [consoleHandler] := by
  constructor
  · simp [runGetLogger, get_logger, runGetLogger_after_setup, List.replicate]
  · rfl

end PlaywrightDemo
